import Mathlib

/-!
Shallow embedding of the ResumeParser front-end (React + TypeScript).

The repository contains several near-duplicate revisions of the same
single-page app.  Two are relevant to the verified claims:

* the local-storage revision (`src/src/App.tsx`, first document,
  lines 35-183): history of full `ArchivedResume` records kept in
  component state and mirrored to `localStorage`;
* the backend-integrated revision (`src/src/App.tsx`, fourth document,
  lines 554-706, documented again in `src/README.md`): history fetched
  from and written through an HTTP backend, with the candidate-holding
  `Uploader` of `src/unnamed/part_001`.

Handlers are embedded as explicit state-transition functions; the
asynchronous `fetch` calls are modelled by splitting each handler into
the synchronous prefix that runs before the `await` and the continuation
that runs when the response arrives, with an `inflight` counter tracking
outstanding requests and a `fetchCount` counter tracking every request
ever issued.
-/

/-- `ResumeData.experience` element (`src/src/App.tsx` lines 15-20). -/
structure ExperienceItem where
  title : String
  company : String
  date : String
  description : String
deriving DecidableEq

/-- `ResumeData.education` element (`src/src/App.tsx` lines 21-25). -/
structure EducationItem where
  degree : String
  institution : String
  date : String
deriving DecidableEq

/-- `interface ResumeData` (`src/src/App.tsx` lines 10-27): the structured
fields extracted from a resume by the backend. -/
structure ResumeData where
  name : String
  email : String
  phone : String
  summary : String
  experience : List ExperienceItem
  education : List EducationItem
  skills : List String
deriving DecidableEq

/-- `interface ArchivedResume extends ResumeData` (`src/src/App.tsx`
lines 29-33): a Result Record, identified by `id`. -/
structure ArchivedResume where
  id : String
  filename : String
  timestamp : String
  data : ResumeData
deriving DecidableEq

/-- A candidate file as the `Uploader` sees it: display name, declared
media type (`File.type`) and size. -/
structure FileInfo where
  name : String
  mediaType : String
  size : Nat
deriving DecidableEq

/-- The single media type accepted by the dropzone:
`accept: \x7b 'application/pdf': ['.pdf'] \x7d`
(`src/unnamed/part_001` line 39). -/
def acceptedType : String := "application/pdf"

/-- The filename extension listed alongside the media type in the same
`accept` entry. -/
def acceptedExt : String := ".pdf"

/-- The accept filter of `react-dropzone` follows the HTML
accept-attribute semantics (attr-accept): a dropped file passes when its
declared media type matches `application/pdf` OR its name ends in
`.pdf` (the suffix test is stated on the character lists). -/
def dropAccepted (f : FileInfo) : Bool :=
  f.mediaType = acceptedType || acceptedExt.data.isSuffixOf f.name.data

/-- Outcome of dropping one file on the `Uploader`'s dropzone. -/
inductive SelectOutcome where
  | stored
  | invalidType
deriving DecidableEq

/-- `src/unnamed/part_001` lines 31-43: `react-dropzone` configured with
`accept: \x7b 'application/pdf': ['.pdf'] \x7d` routes a dropped file into
`acceptedFiles` when it passes `dropAccepted`, otherwise into the
rejection list (rejection reason `file-invalid-type`); `onDrop` stores
`acceptedFiles[0]` via `setSelectedFile` and otherwise leaves the
selection as it was. -/
def selectCandidate (f : FileInfo) (sel : Option FileInfo) :
    SelectOutcome × Option FileInfo :=
  if dropAccepted f then (.stored, some f) else (.invalidType, sel)

/-- `errorData.detail || 'Something went wrong'` (`src/src/App.tsx`
lines 595-596 and 69-70): an absent `detail` property and the empty
string are both falsy in JavaScript, so either yields the fallback. -/
def detailMessage (detail : Option String) : String :=
  match detail with
  | none => "Something went wrong"
  | some d => if d = "" then "Something went wrong" else d

/-- `setHistory(prevHistory => [newAnalysis, ...prevHistory])`
(`src/src/App.tsx` line 601, backend revision): unconditional
insertion at the front of the history list. -/
def recordFront (e : ArchivedResume) (h : List ArchivedResume) :
    List ArchivedResume :=
  e :: h

/-- `const updatedAnalyses = [...analyses, newAnalysis]`
(`src/src/App.tsx` line 81, local-storage revision): unconditional
insertion at the end of the analyses list. -/
def recordEnd (h : List ArchivedResume) (e : ArchivedResume) :
    List ArchivedResume :=
  h ++ [e]

/-- State of the backend-integrated revision (`src/src/App.tsx`
lines 554-706) together with the `Uploader` sub-state of
`src/unnamed/part_001` and the request-accounting counters. -/
structure BackendState where
  history : List ArchivedResume
  currentAnalysis : Option ArchivedResume
  isLoading : Bool
  error : Option String
  selectedFile : Option FileInfo
  inflight : Nat
  fetchCount : Nat
deriving DecidableEq

/-- The state after mount, before any user event. -/
def Binit : BackendState :=
  { history := [], currentAnalysis := none, isLoading := false,
    error := none, selectedFile := none, inflight := 0, fetchCount := 0 }

/-- `if (currentAnalysis?.id === id) return;` (`src/src/App.tsx`
line 611). -/
def currentMatches (s : BackendState) (i : String) : Bool :=
  match s.currentAnalysis with
  | some a => a.id = i
  | none => false

/-- Discrete events of the backend revision: user actions and the
arrival of network responses. -/
inductive BEvent where
  | selectFile (f : FileInfo)
  | resetFile
  | confirmUpload
  | submitOk (a : ArchivedResume)
  | submitRejected (detail : Option String)
  | selectHistory (i : String)
  | fetchOk (a : ArchivedResume)
  | fetchFail
  | newAnalysis

/-- One step of the backend revision.

* `selectFile` / `resetFile`: the dropzone and the Change File button are
  `disabled` while `isLoading` (`src/unnamed/part_001` lines 42, 122);
  a drop is filtered by `selectCandidate`.
* `confirmUpload`: the Analyze button is replaced by the loading
  animation and `disabled` while `isLoading` (`src/unnamed/part_001`
  lines 92, 130); `handleAnalyze` fires only with a selected file
  (lines 45-49).  The synchronous prefix of `handleGenerateSummary`
  (`src/src/App.tsx` lines 579-592) sets loading, clears the error and
  the current analysis, and issues the POST.
* `submitOk` / `submitRejected`: the continuation of
  `handleGenerateSummary` (lines 594-607).  Either outcome switches the
  render (lines 665-684) away from the `Uploader` — to the viewer on
  success, to the error view on failure — unmounting it; `selectedFile`
  is component-local React state (`src/unnamed/part_001` line 29) and is
  destroyed with the unmounted component, hence cleared here.
* `selectHistory`: `handleSelectAnalysis` (lines 610-615) returns early
  when the id matches the current analysis, otherwise sets loading,
  clears the error and issues the GET; the sidebar buttons
  (`src/src/components/Sidebar.tsx` lines 84-97) carry no `disabled`
  attribute, so the event is available while loading.
* `fetchOk` / `fetchFail`: the continuation of `handleSelectAnalysis`
  (lines 616-626); the failure message is the one thrown at line 618.
  Both outcomes likewise leave the `Uploader` unmounted (a result bound
  or an error shown), so `selectedFile` is cleared here too.
* `newAnalysis`: `handleNewAnalysis` (lines 629-632). -/
def bstep (s : BackendState) (e : BEvent) : BackendState :=
  match e with
  | .selectFile f =>
      if s.isLoading then s
      else { s with selectedFile := (selectCandidate f s.selectedFile).2 }
  | .resetFile =>
      if s.isLoading then s
      else { s with selectedFile := none }
  | .confirmUpload =>
      if s.isLoading then s
      else
        match s.selectedFile with
        | none => s
        | some _ =>
            { s with isLoading := true, error := none,
                     currentAnalysis := none,
                     inflight := s.inflight + 1,
                     fetchCount := s.fetchCount + 1 }
  | .submitOk a =>
      if s.inflight = 0 then s
      else
        { s with currentAnalysis := some a,
                 history := recordFront a s.history,
                 isLoading := false, inflight := s.inflight - 1,
                 selectedFile := none }
  | .submitRejected d =>
      if s.inflight = 0 then s
      else
        { s with error := some (detailMessage d),
                 isLoading := false, inflight := s.inflight - 1,
                 selectedFile := none }
  | .selectHistory i =>
      if currentMatches s i then s
      else
        { s with isLoading := true, error := none,
                 inflight := s.inflight + 1,
                 fetchCount := s.fetchCount + 1 }
  | .fetchOk a =>
      if s.inflight = 0 then s
      else
        { s with currentAnalysis := some a,
                 isLoading := false, inflight := s.inflight - 1,
                 selectedFile := none }
  | .fetchFail =>
      if s.inflight = 0 then s
      else
        { s with error := some "Failed to fetch analysis details.",
                 isLoading := false, inflight := s.inflight - 1,
                 selectedFile := none }
  | .newAnalysis =>
      { s with currentAnalysis := none, error := none }

/-- The state reached from `Binit` by a sequence of events. -/
def breach (es : List BEvent) : BackendState :=
  es.foldl bstep Binit

/-- The `localStorage` blob under key `resumeAnalyses` as `JSON.parse`
sees it (`src/src/App.tsx` lines 44-46): either the serialization of a
list of records, which parses back to that list, or a corrupt string, on
which `JSON.parse` throws. -/
inductive StoredBlob where
  | valid (l : List ArchivedResume)
  | corrupt
deriving DecidableEq

/-- The startup effect of the local-storage revision (`src/src/App.tsx`
lines 42-52): `getItem` returning `null` leaves the initial `[]`;
a parse failure is caught and yields `setAnalyses([])`; otherwise the
parsed list is installed.  The effect never throws to its caller. -/
def loadAnalyses (blob : Option StoredBlob) : List ArchivedResume :=
  match blob with
  | none => []
  | some .corrupt => []
  | some (.valid l) => l

/-- State of the local-storage revision (`src/src/App.tsx` lines 35-52),
with `storage` modelling the `resumeAnalyses` key of `localStorage`. -/
structure LocalState where
  analyses : List ArchivedResume
  currentAnalysisId : Option String
  isLoading : Bool
  error : Option String
  storage : Option StoredBlob
deriving DecidableEq

/-- Settled outcome of the `POST /parse-resume` request issued by the
local-storage revision's `handleGenerateSummary`. -/
inductive SubmitOutcome where
  | ok (data : ResumeData)
  | rejected (detail : Option String)

/-- `handleGenerateSummary` of the local-storage revision
(`src/src/App.tsx` lines 54-95), run from request to settled response:
on success a new record is built with `id = Date.now().toString()`
(modelled by the `newId` argument), `filename = file.name` and the
timestamp, appended at the end of `analyses` (line 81), the full updated
list is written through to `localStorage` (line 83) and made current;
on a non-ok response the thrown `detail || fallback` message lands in
`error` and neither `analyses` nor `storage` is touched. -/
def localSubmit (file : FileInfo) (newId ts : String)
    (outcome : SubmitOutcome) (s : LocalState) : LocalState :=
  match outcome with
  | .ok data =>
      let newAnalysis : ArchivedResume :=
        { id := newId, filename := file.name, timestamp := ts, data := data }
      let updatedAnalyses := recordEnd s.analyses newAnalysis
      { s with analyses := updatedAnalyses,
               storage := some (.valid updatedAnalyses),
               currentAnalysisId := some newId,
               error := none, isLoading := false }
  | .rejected d =>
      { s with error := some (detailMessage d), isLoading := false }

/-- `handleSelectAnalysis` of the local-storage revision
(`src/src/App.tsx` lines 97-100): unconditionally clears the error and
sets the current id; no request is made. -/
def localSelectAnalysis (i : String) (s : LocalState) : LocalState :=
  { s with error := none, currentAnalysisId := some i }

/-- `handleNewAnalysis` of the local-storage revision (`src/src/App.tsx`
lines 102-105). -/
def localNewAnalysis (s : LocalState) : LocalState :=
  { s with error := none, currentAnalysisId := none }

/-- `const currentAnalysis = analyses.find(a => a.id === currentAnalysisId)`
(`src/src/App.tsx` line 107). -/
def localCurrentAnalysis (s : LocalState) : Option ArchivedResume :=
  s.analyses.find? (fun a => some a.id = s.currentAnalysisId)

/-- Which of the four mutually exclusive views the local-storage
revision renders. -/
inductive LocalView where
  | loader
  | errorView (msg : String)
  | viewer (a : ArchivedResume)
  | uploadIntake
deriving DecidableEq

/-- The render of the local-storage revision (`src/src/App.tsx`
lines 146-171): loader while `isLoading`, else the error panel when
`error` is set, else the `ResumeViewer` when the `find` yields a record,
else the `Uploader`. -/
def localView (s : LocalState) : LocalView :=
  if s.isLoading then .loader
  else
    match s.error with
    | some m => .errorView m
    | none =>
        match localCurrentAnalysis s with
        | some a => .viewer a
        | none => .uploadIntake

/-- The parsed fields of spec Scenario A, used as concrete test data. -/
def exData : ResumeData :=
  { name := "Ada", email := "a@x.com", phone := "1", summary := "s",
    experience := [], education := [], skills := [] }

/-- A concrete Result Record. -/
def exResume : ArchivedResume :=
  { id := "r1", filename := "cv.pdf", timestamp := "t1", data := exData }

/-- A concrete PDF candidate file. -/
def exFile : FileInfo :=
  { name := "cv.pdf", mediaType := "application/pdf", size := 1 }

/-- A concrete local-storage revision state showing `exResume`. -/
def exLocalDetail : LocalState :=
  { analyses := [exResume], currentAnalysisId := some "r1",
    isLoading := false, error := none,
    storage := some (.valid [exResume]) }

/-- A concrete local-storage revision state with one stored record and
nothing selected. -/
def exLocalIdle : LocalState :=
  { analyses := [exResume], currentAnalysisId := none,
    isLoading := false, error := none,
    storage := some (.valid [exResume]) }

theorem foldl_recordFront_eq (es acc : List ArchivedResume) :
    List.foldl (fun h e => recordFront e h) acc es = es.reverse ++ acc := by
  induction es generalizing acc with
  | nil => simp
  | cons a t ih => simp [recordFront, List.foldl_cons, ih]

theorem foldl_recordEnd_eq (es acc : List ArchivedResume) :
    List.foldl recordEnd acc es = acc ++ es := by
  induction es generalizing acc with
  | nil => simp
  | cons a t ih => simp [recordEnd, List.foldl_cons, ih]

/-- C1 counterexample: recording the same entry twice is not a no-op;
the resulting history holds the id twice, so `all()` does not contain
each distinct id exactly once. -/
theorem c1_duplicate_id_counterexample :
    recordFront exResume (recordFront exResume []) = [exResume, exResume] ∧
    (recordFront exResume (recordFront exResume [])).countP
      (fun e => e.id == exResume.id) = 2 := by
  constructor
  · rfl
  · rfl

/-- C1 amended: `record` inserts unconditionally, with no duplicate-id
check — at the front in the backend revision, so the history is in
most-recently-recorded-first order with one occurrence per `record`
call, and at the end in the local-storage revision. -/
theorem c1_record_order (es : List ArchivedResume) :
    List.foldl (fun h e => recordFront e h) [] es = es.reverse ∧
    List.foldl recordEnd [] es = es := by
  constructor
  · simpa using foldl_recordFront_eq es []
  · simpa using foldl_recordEnd_eq es []

/-- C2 counterexample: from `Pending` (a submit in flight, one request
outstanding), clicking a sidebar history entry starts a second fetch —
the sidebar buttons are not disabled and `handleSelectAnalysis` has no
loading guard — so a reachable state carries two in-flight requests. -/
theorem c2_second_request_counterexample :
    (breach [.selectFile exFile, .confirmUpload]).isLoading = true ∧
    (breach [.selectFile exFile, .confirmUpload]).inflight = 1 ∧
    (breach [.selectFile exFile, .confirmUpload,
             .selectHistory "r9"]).inflight = 2 := by
  refine ⟨rfl, rfl, rfl⟩

/-- C2 amended: while `Pending`, `confirmUpload` is ignored — the
Analyze button and the dropzone are disabled by `isLoading` — and
creates no second in-flight request; `selectHistoryEntry`, however, is
not guarded (see the counterexample). -/
theorem c2_confirm_disabled_while_pending (s : BackendState)
    (h : s.isLoading = true) : bstep s .confirmUpload = s := by
  simp [bstep, h]

theorem c2_confirm_disabled_witness :
    (breach [.selectFile exFile, .confirmUpload]).isLoading = true ∧
    bstep (breach [.selectFile exFile, .confirmUpload]) .confirmUpload
      = breach [.selectFile exFile, .confirmUpload] :=
  ⟨rfl, c2_confirm_disabled_while_pending _ rfl⟩

/-- C3: a submit answered with a non-success status surfaces the body's
`detail` message verbatim in the `Failed` state (the generic fallback
when no detail is present), leaves the history — hence its length —
untouched, clears the active analysis and ends not loading.  JavaScript
treats an empty-string `detail` as absent (`detail || fallback`), so the
verbatim guarantee is stated for a non-empty message. -/
theorem c3_submit_rejected_verbatim (s : BackendState) (f : FileInfo)
    (d : String) (hl : s.isLoading = false) (hf : s.selectedFile = some f)
    (hd : d ≠ "") :
    (bstep (bstep s .confirmUpload) (.submitRejected (some d))).error
      = some d ∧
    (bstep (bstep s .confirmUpload) (.submitRejected none)).error
      = some "Something went wrong" ∧
    ∀ dd : Option String,
      (bstep (bstep s .confirmUpload) (.submitRejected dd)).history
        = s.history ∧
      (bstep (bstep s .confirmUpload) (.submitRejected dd)).currentAnalysis
        = none ∧
      (bstep (bstep s .confirmUpload) (.submitRejected dd)).isLoading
        = false := by
  refine ⟨?_, ?_, fun dd => ⟨?_, ?_, ?_⟩⟩ <;>
    simp [bstep, hl, hf, detailMessage, hd]

theorem c3_submit_rejected_witness :
    (breach [.selectFile exFile]).isLoading = false ∧
    (breach [.selectFile exFile]).selectedFile = some exFile ∧
    "Unsupported file" ≠ "" ∧
    (bstep (bstep (breach [.selectFile exFile]) .confirmUpload)
        (.submitRejected (some "Unsupported file"))).error
      = some "Unsupported file" :=
  ⟨rfl, rfl, by decide,
    (c3_submit_rejected_verbatim (breach [.selectFile exFile]) exFile
      "Unsupported file" rfl rfl (by decide)).1⟩

/-- C4 counterexample: select a candidate, confirm the upload, and let
the submit fail — the error view replaces the intake, the `Uploader`
unmounts and its component-local `selectedFile` is destroyed, so the
candidate selected before `confirmUpload` is gone in the `Failed`
state. -/
theorem c4_candidate_destroyed_counterexample :
    (breach [.selectFile exFile, .confirmUpload,
             .submitRejected (some "Unsupported file")]).error
      = some "Unsupported file" ∧
    (breach [.selectFile exFile, .confirmUpload,
             .submitRejected (some "Unsupported file")]).selectedFile
      = none := by
  refine ⟨rfl, rfl⟩

/-- C4 amended: the handlers themselves never clear the selected file
— it survives across the in-flight phase of the submit — but on failure
the transition to `Failed` renders the error view in place of the
intake, unmounting the `Uploader` and destroying the candidate: the
user must reselect after dismissing the error. -/
theorem c4_candidate_lost_on_failure (s : BackendState) (f : FileInfo)
    (d : Option String) (hl : s.isLoading = false)
    (hf : s.selectedFile = some f) :
    (bstep s .confirmUpload).selectedFile = some f ∧
    (bstep (bstep s .confirmUpload) (.submitRejected d)).selectedFile
      = none ∧
    (bstep (bstep s .confirmUpload) (.submitRejected d)).error
      = some (detailMessage d) := by
  refine ⟨?_, ?_, ?_⟩ <;> simp [bstep, hl, hf]

theorem c4_candidate_lost_witness :
    (breach [.selectFile exFile]).isLoading = false ∧
    (breach [.selectFile exFile]).selectedFile = some exFile ∧
    (bstep (bstep (breach [.selectFile exFile]) .confirmUpload)
        (.submitRejected (some "Unsupported file"))).selectedFile
      = none :=
  ⟨rfl, rfl,
    (c4_candidate_lost_on_failure (breach [.selectFile exFile]) exFile
      (some "Unsupported file") rfl rfl).2.1⟩

/-- C5 counterexample: reach `Detail(r1)` by a successful submit, then
select another history id and let the fetch fail — the resulting state
has the error set (a `Failed` state) while the previously active record
is still bound: `handleSelectAnalysis` never clears `currentAnalysis`
on the failure path. -/
theorem c5_failed_keeps_result_counterexample :
    (breach [.selectFile exFile, .confirmUpload, .submitOk exResume,
             .selectHistory "r2", .fetchFail]).error
      = some "Failed to fetch analysis details." ∧
    (breach [.selectFile exFile, .confirmUpload, .submitOk exResume,
             .selectHistory "r2", .fetchFail]).currentAnalysis
      = some exResume := by
  refine ⟨rfl, rfl⟩

/-- C5 amended: after a failed submit no result is active —
`handleGenerateSummary` clears `currentAnalysis` before issuing the
request — but a failed fetch-by-id leaves the previously active record
bound unchanged (the error view merely takes display precedence). -/
theorem c5_failed_result_binding (s : BackendState) (f : FileInfo)
    (d : Option String) (hl : s.isLoading = false)
    (hf : s.selectedFile = some f) :
    (bstep (bstep s .confirmUpload) (.submitRejected d)).currentAnalysis
      = none ∧
    ∀ t : BackendState,
      (bstep t .fetchFail).currentAnalysis = t.currentAnalysis := by
  constructor
  · simp [bstep, hl, hf]
  · intro t
    by_cases h : t.inflight = 0 <;> simp [bstep, h]

theorem c5_failed_result_binding_witness :
    (breach [.selectFile exFile]).isLoading = false ∧
    (breach [.selectFile exFile]).selectedFile = some exFile ∧
    (bstep (bstep (breach [.selectFile exFile]) .confirmUpload)
        (.submitRejected none)).currentAnalysis = none :=
  ⟨rfl, rfl,
    (c5_failed_result_binding (breach [.selectFile exFile]) exFile
      none rfl rfl).1⟩

/-- C6 counterexample: with a candidate selected in the `Idle` state,
`newAnalysis` leaves the pending candidate in place — the handler only
clears `currentAnalysis` and `error` — so the reset does not yield an
empty pending candidate. -/
theorem c6_candidate_not_cleared_counterexample :
    (breach [.selectFile exFile, .newAnalysis]).selectedFile
      = some exFile ∧
    (breach [.selectFile exFile, .newAnalysis]).currentAnalysis = none ∧
    (breach [.selectFile exFile, .newAnalysis]).error = none := by
  refine ⟨rfl, rfl, rfl⟩

/-- C6 amended: from every state, `newAnalysis` clears the active
result and the active error, but leaves the pending candidate exactly
as it was — the handler never touches the uploader's selected file. -/
theorem c6_new_analysis_reset (s : BackendState) :
    (bstep s .newAnalysis).currentAnalysis = none ∧
    (bstep s .newAnalysis).error = none ∧
    (bstep s .newAnalysis).selectedFile = s.selectedFile := by
  refine ⟨rfl, rfl, rfl⟩

/-- C7: selecting the history entry whose id equals the current
`Detail` id is a complete no-op in both revisions — the backend
revision returns before issuing the fetch, so the whole state, the
request count included, is unchanged; the local revision's handler
rewrites the same values, leaving an error-free state unchanged. -/
theorem c7_select_current_noop (s : BackendState) (a : ArchivedResume)
    (i : String) (hc : s.currentAnalysis = some a) (hi : a.id = i)
    (t : LocalState) (j : String) (ht : t.error = none)
    (hj : t.currentAnalysisId = some j) :
    bstep s (.selectHistory i) = s ∧
    (bstep s (.selectHistory i)).fetchCount = s.fetchCount ∧
    localSelectAnalysis j t = t := by
  have hm : currentMatches s i = true := by
    simp [currentMatches, hc, hi]
  have h1 : bstep s (.selectHistory i) = s := by
    simp [bstep, hm]
  refine ⟨h1, by rw [h1], ?_⟩
  cases t
  simp only [localSelectAnalysis] at *
  simp_all

theorem c7_select_current_noop_witness :
    (breach [.selectFile exFile, .confirmUpload,
             .submitOk exResume]).currentAnalysis = some exResume ∧
    exResume.id = "r1" ∧
    exLocalDetail.error = none ∧
    exLocalDetail.currentAnalysisId = some "r1" ∧
    bstep (breach [.selectFile exFile, .confirmUpload, .submitOk exResume])
        (.selectHistory "r1")
      = breach [.selectFile exFile, .confirmUpload, .submitOk exResume] ∧
    localSelectAnalysis "r1" exLocalDetail = exLocalDetail :=
  ⟨rfl, rfl, rfl, rfl,
    (c7_select_current_noop
      (breach [.selectFile exFile, .confirmUpload, .submitOk exResume])
      exResume "r1" rfl rfl exLocalDetail "r1" rfl rfl).1,
    (c7_select_current_noop
      (breach [.selectFile exFile, .confirmUpload, .submitOk exResume])
      exResume "r1" rfl rfl exLocalDetail "r1" rfl rfl).2.2⟩

/-- C9: the startup load is total — a missing blob and a corrupt blob
both silently yield the empty store — and every successful record
writes the full updated list through, so the persisted blob is exactly
the serialization of the complete current store. -/
theorem c9_persistence_snapshot (file : FileInfo) (newId ts : String)
    (data : ResumeData) (s : LocalState) :
    loadAnalyses none = [] ∧
    loadAnalyses (some .corrupt) = [] ∧
    (localSubmit file newId ts (.ok data) s).storage
      = some (.valid (localSubmit file newId ts (.ok data) s).analyses) ∧
    (localSubmit file newId ts (.rejected none) s).storage = s.storage := by
  refine ⟨rfl, rfl, rfl, rfl⟩

/-- C10: in the local-storage revision, selecting an id with no
matching record surfaces no error: the handler unconditionally clears
the error and installs the id, the `find` yields nothing, and the view
falls back to the upload intake — the absent id is never reported. -/
theorem c10_absent_id_falls_back (s : LocalState) (i : String)
    (hl : s.isLoading = false)
    (habs : ∀ a ∈ s.analyses, a.id ≠ i) :
    (localSelectAnalysis i s).error = none ∧
    (localSelectAnalysis i s).currentAnalysisId = some i ∧
    localCurrentAnalysis (localSelectAnalysis i s) = none ∧
    localView (localSelectAnalysis i s) = .uploadIntake := by
  have hfind : localCurrentAnalysis (localSelectAnalysis i s) = none := by
    simp only [localCurrentAnalysis, localSelectAnalysis]
    rw [List.find?_eq_none]
    intro a ha
    simp only [decide_eq_true_eq, Option.some_inj]
    exact habs a ha
  have h2 : (localSelectAnalysis i s).isLoading = false := by
    simp [localSelectAnalysis, hl]
  have h3 : (localSelectAnalysis i s).error = none := rfl
  refine ⟨rfl, rfl, hfind, ?_⟩
  simp [localView, h2, h3, hfind]

theorem c10_absent_id_falls_back_witness :
    exLocalIdle.isLoading = false ∧
    (∀ a ∈ exLocalIdle.analyses, a.id ≠ "missing") ∧
    (localSelectAnalysis "missing" exLocalIdle).error = none ∧
    localView (localSelectAnalysis "missing" exLocalIdle) = .uploadIntake :=
  ⟨rfl, by decide,
    (c10_absent_id_falls_back exLocalIdle "missing" rfl (by decide)).1,
    (c10_absent_id_falls_back exLocalIdle "missing" rfl (by decide)).2.2.2⟩
